import Mathlib

/-!
Verification of the `elmago-discord-bot` repository (file `src/bot.py`).

The Python source is shallowly embedded: every helper below is a direct
translation of a function or code region of `src/bot.py`.  Python strings are
modelled as Lean `String` (sequences of Unicode code points, matching Python
string semantics), Python `str.strip` / slicing / `str.split` / `str.replace`
and the `in` substring operator are re-implemented on `List Char` to mirror the
CPython behaviour.  Effectful code (`asyncio` subprocess handling, Discord
calls, the temporary directory) is embedded by passing an explicit environment
describing the outcome of each external interaction and by recording the
performed effects in a result record.
-/

namespace Bot

/-- ASCII whitespace recognised by Python `str.strip` / the regex class
`\s` (space, tab, newline, carriage return, vertical tab, form feed). -/
def pyIsSpace (c : Char) : Bool :=
  c = ' ' || c = '\t' || c = '\n' || c = '\r' || c = '\x0b' || c = '\x0c'

/-- Python `str.strip()` with no argument: remove whitespace from both ends. -/
def pyStrip (s : String) : String :=
  ⟨((s.data.dropWhile pyIsSpace).reverse.dropWhile pyIsSpace).reverse⟩

/-- Python slicing `s[:n]` (by code points). -/
def pyTake (s : String) (n : Nat) : String := ⟨s.data.take n⟩

/-- Python `str.split(sep)` for a one-character separator `sep`:
`"".split(sep) = [""]`, and every occurrence of `sep` starts a new field. -/
def splitOnCharAux (sep : Char) : List Char → List (List Char)
  | [] => [[]]
  | c :: cs =>
    if c = sep then [] :: splitOnCharAux sep cs
    else
      match splitOnCharAux sep cs with
      | [] => [[c]]
      | h :: t => (c :: h) :: t

/-- Python `str.split(sep)` returning strings. -/
def pySplitChar (sep : Char) (s : String) : List String :=
  (splitOnCharAux sep s.data).map fun l => ⟨l⟩

/-- Python substring test `needle in hay`. -/
def containsSub (hay needle : List Char) : Bool :=
  hay.tails.any fun t => t.take needle.length = needle

/-- Python substring test on strings. -/
def containsSubStr (s sub : String) : Bool := containsSub s.data sub.data

/-- Python `str.replace(old, new)` (all non-overlapping occurrences, scanned
left to right); `old` is non-empty in every use below.  The `fuel` argument
makes the recursion structural; every call supplies `fuel = l.length`, and
since each step consumes at least one character while spending exactly one
unit of fuel, the `(0, c :: cs)` fallback is never reached. -/
def replaceFuel (old new : List Char) : Nat → List Char → List Char
  | _, [] => []
  | 0, l => l
  | fuel + 1, c :: cs =>
    if old ≠ [] ∧ (c :: cs).take old.length = old then
      new ++ replaceFuel old new fuel ((c :: cs).drop old.length)
    else
      c :: replaceFuel old new fuel cs

/-- Python `str.replace` on strings. -/
def pyReplace (s old new : String) : String :=
  ⟨replaceFuel old.data new.data s.data.length s.data⟩

/-- `Path(p).name`: the final path component (text after the last slash). -/
def pathName (p : String) : String := ⟨(p.data.reverse.takeWhile (· ≠ '/')).reverse⟩

/-! ### URL Preview Suppressor (`suppress_url_previews`, bot.py lines 26-36)

The Python code substitutes the regex `(https?://[^\s<>]+)` by `<url>` using
`re.sub`.  The regex engine scans positions left to right; at each position it
first tries the scheme `https://` (greedy optional `s`), then `http://`, and
then requires at least one character from the class `[^\s<>]`, taken greedily.
Because `/` and the class characters are disjoint from what follows, this
matching is deterministic and is embedded directly below. -/

/-- A character allowed in the regex body class `[^\s<>]`. -/
def isUrlBodyChar (c : Char) : Bool := !(pyIsSpace c) && c ≠ '<' && c ≠ '>'

/-- Try to read the scheme `https://` (preferred: the optional `s` of
`https?` is greedy) or `http://` at the head of the list; return the scheme
and the remainder. -/
def matchScheme : List Char → Option (List Char × List Char)
  | 'h' :: 't' :: 't' :: 'p' :: 's' :: ':' :: '/' :: '/' :: rest => some ("https://".data, rest)
  | 'h' :: 't' :: 't' :: 'p' :: ':' :: '/' :: '/' :: rest => some ("http://".data, rest)
  | _ => none

theorem matchScheme_some {l sch rest : List Char}
    (h : matchScheme l = some (sch, rest)) :
    l = sch ++ rest ∧ sch ≠ [] ∧ rest.length < l.length := by
  unfold matchScheme at h
  split at h
  · injection h with h'
    injection h' with hsch hrest
    subst hsch
    subst hrest
    exact ⟨rfl, by decide, by simp; omega⟩
  · injection h with h'
    injection h' with hsch hrest
    subst hsch
    subst hrest
    exact ⟨rfl, by decide, by simp; omega⟩
  · exact absurd h (by simp)

theorem matchScheme_append (sch rest : List Char)
    (hs : sch = "http://".data ∨ sch = "https://".data) :
    matchScheme (sch ++ rest) = some (sch, rest) := by
  rcases hs with h | h <;> subst h <;> rfl

/-- The scan of `re.sub(r'(https?://[^\s<>]+)', wrap, text)`: move left to
right; at a position where a scheme is read and at least one body character
follows, wrap the maximal match in angle brackets and continue after it;
otherwise copy the character and move on.  The `fuel` argument makes the
recursion structural; every call supplies `fuel = l.length`, and since each
step consumes at least one character while spending exactly one unit of fuel,
the `(0, c :: cs)` fallback is never reached. -/
def suppressFuel : Nat → List Char → List Char
  | _, [] => []
  | 0, l => l
  | fuel + 1, c :: cs =>
    match matchScheme (c :: cs) with
    | some (sch, rest) =>
      let body := rest.takeWhile isUrlBodyChar
      if body.isEmpty then c :: suppressFuel fuel cs
      else '<' :: sch ++ body ++ '>' :: suppressFuel fuel (rest.drop body.length)
    | none => c :: suppressFuel fuel cs

/-- The regex substitution on a character list, with the canonical fuel. -/
def suppressL (l : List Char) : List Char := suppressFuel l.length l

/-- `suppress_url_previews` from bot.py: wrap every URL match in `<>`.
(The Python early return on falsy text coincides with the empty-list case.) -/
def suppress_url_previews (s : String) : String := ⟨suppressL s.data⟩

/-- A regex match of `(https?://[^\s<>]+)` begins exactly at this position. -/
def startsUrl (l : List Char) : Bool :=
  match matchScheme l with
  | some (_, rest) => !(rest.takeWhile isUrlBodyChar).isEmpty
  | none => false

/-- Some position of the text carries a match of the URL pattern. -/
def hasUrlAux : List Char → Bool
  | [] => false
  | c :: cs => startsUrl (c :: cs) || hasUrlAux cs

/-- The text contains an HTTP/HTTPS URL (a match of the Python pattern). -/
def hasUrl (s : String) : Bool := hasUrlAux s.data

/-! ### Tweet-ID extraction (`extract_tweet_id`, bot.py lines 39-53)

The Python code runs `re.search` with the pattern
`(?:twitter\.com|x\.com)/(?:\w+)/status/(\d+)` and, when that fails, with
`(?:twitter\.com|x\.com)/i/(?:web/)?status/(\d+)`, returning group 1 of the
first (leftmost) match, or `None`.  Since `/` is not a word character and the
digit run ends the pattern, the greedy quantifiers are deterministic. -/

/-- The regex class `\w` (ASCII range, as used by the tweet URLs). -/
def isWordChar (c : Char) : Bool := c.isAlphanum || c = '_'

/-- Read the literal `lit` at the head of `l` and return the remainder. -/
def dropLit (lit : List Char) (l : List Char) : Option (List Char) :=
  if l.take lit.length = lit then some (l.drop lit.length) else none

/-- The alternation `(?:twitter\.com|x\.com)` at the current position. -/
def matchDomain (l : List Char) : Option (List Char) :=
  (dropLit "twitter.com".data l).orElse fun _ => dropLit "x.com".data l

/-- The first pattern, `(?:twitter\.com|x\.com)/(?:\w+)/status/(\d+)`, tried
at one fixed position; returns the captured digit run. -/
def matchP1At (l : List Char) : Option (List Char) := do
  let r1 ← matchDomain l
  let r2 ← dropLit "/".data r1
  let w := r2.takeWhile isWordChar
  if w.isEmpty then none
  else do
    let r3 ← dropLit "/status/".data (r2.drop w.length)
    let d := r3.takeWhile Char.isDigit
    if d.isEmpty then none else some d

/-- The tail `status/(\d+)` of the second pattern. -/
def matchStatusDigits (l : List Char) : Option (List Char) := do
  let r ← dropLit "status/".data l
  let d := r.takeWhile Char.isDigit
  if d.isEmpty then none else some d

/-- The second pattern, `(?:twitter\.com|x\.com)/i/(?:web/)?status/(\d+)`,
tried at one fixed position (greedy optional `web/` first). -/
def matchP2At (l : List Char) : Option (List Char) := do
  let r1 ← matchDomain l
  let r2 ← dropLit "/i/".data r1
  match (dropLit "web/".data r2).bind matchStatusDigits with
  | some d => some d
  | none => matchStatusDigits r2

/-- `re.search`: try the position matcher at every position, left to right. -/
def reSearch (m : List Char → Option (List Char)) : List Char → Option (List Char)
  | [] => m []
  | c :: cs => (m (c :: cs)).orElse fun _ => reSearch m cs

/-- `extract_tweet_id` from bot.py: first pattern over the whole URL, then the
second; `None` when neither matches. -/
def extract_tweet_id (url : String) : Option String :=
  match reSearch matchP1At url.data with
  | some d => some ⟨d⟩
  | none =>
    match reSearch matchP2At url.data with
    | some d => some ⟨d⟩
    | none => none

/-! ### Video Fetcher (`download_twitter_video`, bot.py lines 56-164)

The subprocess interaction is embedded as an environment value: the outcome of
`asyncio.create_subprocess_exec` + `asyncio.wait_for(process.communicate(),
timeout=60)` is either a timeout, some other raised exception, or a completed
process with a return code and decoded stdout/stderr text; the result of
`Path(output_dir).glob(f"{tweet_id}.*")` is the list of matching file paths in
glob order.  All failure paths of the Python function return an
`{"error": ...}` dictionary; the success path returns the metadata dictionary.
These two dictionary shapes are embedded as the two constructors of
`FetchResult`. -/

/-- The separator `␟` (U+241F) used in the `--print` template. -/
def sepChar : Char := '␟'

/-- The metadata record returned by a successful fetch (the success
dictionary built at bot.py lines 147-155). -/
structure VideoData where
  file_path : String
  title : String
  thumbnail : String
  uploader : String
  uploader_id : String
  description : String
  upload_date : String
deriving DecidableEq

/-- Result of `download_twitter_video`: the error dictionary or the
metadata dictionary. -/
inductive FetchResult where
  | err (msg : String)
  | ok (v : VideoData)
deriving DecidableEq

/-- Outcome of the downloader subprocess as observed by the Python code. -/
inductive ProcOutcome where
  | timeout
  | exn (ename emsg : String)
  | done (returncode : Int) (stdoutText stderrText : String)
deriving DecidableEq

/-- Environment of one `download_twitter_video` call. -/
structure FetchEnv where
  proc : ProcOutcome
  files : List String
deriving DecidableEq

/-- `download_twitter_video` from bot.py, over an explicit environment. -/
def download_twitter_video (url : String) (output_dir : String) (env : FetchEnv) :
    FetchResult :=
  match extract_tweet_id url with
  | none => .err "No se pudo extraer el ID del tweet de la URL"
  | some _tweet_id =>
    match env.proc with
    | .timeout => .err "Timeout (60s) al descargar video de Twitter"
    | .exn ename emsg =>
      .err ("Excepción al descargar video: " ++ ename ++ ": " ++ emsg)
    | .done rc so se =>
      let stdout_text := pyStrip so
      let stderr_text := pyStrip se
      if rc ≠ 0 then
        .err ("yt-dlp falló con código " ++ toString rc ++ ". Error: " ++ stderr_text)
      else
        let parts := pySplitChar sepChar stdout_text
        if parts.length < 7 then
          .err ("Output de yt-dlp inesperado (esperaba 7 partes, obtuvo " ++
            toString parts.length ++ "): " ++ pyTake stdout_text 200)
        else if parts.length = 7 then
          if env.files = [] then
            .err ("No se encontró archivo de video descargado en " ++ output_dir)
          else
            .ok { file_path := env.files.headD ""
                , title := pyStrip parts[1]!
                , thumbnail := pyStrip parts[2]!
                , uploader := pyStrip parts[3]!
                , uploader_id := pyStrip parts[4]!
                , description := pyStrip parts[5]!
                , upload_date := pyStrip parts[6]! }
        else
          .err "Excepción al descargar video: ValueError: too many values to unpack (expected 7)"

/-- Whether the downloader child process is still running when
`download_twitter_video` returns.  On the timeout path the code only cancels
the task awaiting `process.communicate()` (via `asyncio.wait_for`); no
`terminate()`/`kill()` is ever issued, so a child that did not exit within the
60-second window is abandoned and keeps running. -/
def childRunningAfterFetch (env : FetchEnv) : Bool :=
  match env.proc with
  | .timeout => true
  | _ => false

/-! ### Relay Orchestrator (`replace_twitter`, bot.py lines 187-318)

The `/vx` handler is embedded as a pure function from the request URL and an
environment (outcome of the fetch, the size reported by `stat`, the outcome of
the upload call, and an optional unexpected exception raised inside the `try`
block) to a record of the performed effects.  The `try`-body is the
`vxBody` function (an `Except`, whose `error` case is an exception reaching
the outer `except Exception` handler); `replace_twitter` adds the
`except` and `finally` (temp-dir cleanup) layers around it. -/

/-- The 50 MiB attachment ceiling (`max_size`, bot.py line 231). -/
def max_size : Nat := 50 * 1024 * 1024

/-- The attachment + embed pair sent by the upload call
(`interaction.followup.send(embed=embed, file=file)`). -/
structure UploadPayload where
  embedDescription : String
  embedAuthor : Option (String × Option String)
  footerSizeBytes : Nat
  filename : String
deriving DecidableEq

/-- The distinct follow-up text messages the handler can send. -/
inductive SentMsg where
  | invalidUrl
  | fetchError (msg : String)
  | oversize (sizeBytes : Nat)
  | httpError (status : Nat) (text : String)
  | unexpected (ename emsg : String)
deriving DecidableEq

/-- Outcome of the upload call (`discord.HTTPException` is the only
exception type handled specially). -/
inductive UploadOutcome where
  | ok
  | httpErr (status : Nat) (text : String)
deriving DecidableEq

/-- Environment of one `/vx` invocation. -/
structure OrchEnv where
  tempDir : String
  fetchEnv : FetchEnv
  fileSize : Nat
  upload : UploadOutcome
  unexpected : Option (String × String)
deriving DecidableEq

/-- Effects performed by one `/vx` invocation: each sent message is paired
with its `ephemeral` flag; `uploaded` is the attachment send, when reached. -/
structure RunResult where
  deferred : Bool
  tempDirCreated : Bool
  tempDirRemoved : Bool
  sent : List (SentMsg × Bool)
  uploaded : Option UploadPayload
deriving DecidableEq

/-- The embed construction (bot.py lines 244-282): author line with fallback
`"Desconocido"`, description truncated to 280 code points and passed once
through `suppress_url_previews`, avatar URL from `unavatar.io`, size footer. -/
def buildPayload (v : VideoData) (file_size : Nat) : UploadPayload :=
  let author_name := if pyStrip v.uploader = "" then "Desconocido" else pyStrip v.uploader
  let author_handle := pyStrip v.uploader_id
  let d0 := pyStrip v.description
  let d1 := if 280 < d0.length then pyTake d0 280 else d0
  let d2 := if d1 ≠ "" then suppress_url_previews d1 else d1
  { embedDescription := if d2 = "" then "Video de X" else d2
  , embedAuthor :=
      if author_name ≠ "" && author_handle ≠ "" then
        some (author_name ++ " (@" ++ author_handle ++ ")",
              some ("https://unavatar.io/x/" ++ author_handle))
      else if author_name ≠ "" then some (author_name, none)
      else none
  , footerSizeBytes := file_size
  , filename := pathName v.file_path }

/-- The `try` block of the `/vx` handler (bot.py lines 209-298): fetch, size
check, embed construction and upload; `.error` is an unexpected exception
escaping to the outer `except Exception` handler. -/
def vxBody (url : String) (env : OrchEnv) :
    Except (String × String) (List (SentMsg × Bool) × Option UploadPayload) :=
  match env.unexpected with
  | some e => .error e
  | none =>
    match download_twitter_video url env.tempDir env.fetchEnv with
    | .err m => .ok ([(.fetchError (pyTake m 1800), true)], none)
    | .ok v =>
      if env.fileSize > max_size then
        .ok ([(.oversize env.fileSize, true)], none)
      else
        match env.upload with
        | .ok => .ok ([], some (buildPayload v env.fileSize))
        | .httpErr st tx => .ok ([(.httpError st tx, true)], some (buildPayload v env.fileSize))

/-- The `/vx` handler `replace_twitter` from bot.py: URL validation (early
ephemeral rejection before any directory is created), deferred response,
temp-dir creation, the `try` body, the outer `except Exception` handler, and
the `finally` block removing the temporary directory. -/
def replace_twitter (url : String) (env : OrchEnv) : RunResult :=
  if containsSubStr url "twitter.com" || containsSubStr url "x.com" then
    match vxBody url env with
    | .ok (msgs, up) =>
      { deferred := true, tempDirCreated := true, tempDirRemoved := true
      , sent := msgs, uploaded := up }
    | .error (en, em) =>
      { deferred := true, tempDirCreated := true, tempDirRemoved := true
      , sent := [(.unexpected en em, true)], uploaded := none }
  else
    { deferred := false, tempDirCreated := false, tempDirRemoved := false
    , sent := [(.invalidUrl, true)], uploaded := none }

/-! ### Link Rewriter commands (`replace_instagram` / `replace_reddit`,
bot.py lines 328-356) -/

/-- Reply of a link-rewriter command: a public message with the rewritten
URL, or an ephemeral rejection. -/
inductive CmdReply where
  | sent (msg : String)
  | rejected (msg : String)
deriving DecidableEq

/-- The `/ig` handler from bot.py. -/
def replace_instagram (url : String) : CmdReply :=
  if containsSubStr url "instagram.com" then
    .sent (pyReplace url "instagram.com" "kkinstagram.com")
  else
    .rejected "URL tan invalida como vos."

/-- The `/rx` handler from bot.py. -/
def replace_reddit (url : String) : CmdReply :=
  if containsSubStr url "reddit.com" then
    .sent (pyReplace url "reddit.com" "rxddit.com")
  else
    .rejected "URL tan invalida como vos."

/-! ### Helper lemmas -/

theorem str_eq_empty_iff (s : String) : s = "" ↔ s.data = [] := by
  cases s with
  | mk d =>
    constructor
    · intro h
      have : d = ("" : String).data := congrArg String.data h
      simpa using this
    · intro h
      subst h
      rfl

theorem str_append_ne_empty (s t : String) (h : s ≠ "") : s ++ t ≠ "" := by
  cases s with
  | mk d1 =>
    cases t with
    | mk d2 =>
      intro he
      apply h
      rw [str_eq_empty_iff] at he ⊢
      have hd : (String.mk d1 ++ String.mk d2).data = d1 ++ d2 := rfl
      rw [hd] at he
      exact (List.append_eq_nil.mp he).1

/-! ### Claims -/

/-- Claim C1: on every invocation of `/vx` the scoped temporary directory is
removed exactly when it was created — every exit path of the handler
(successful upload, fetch failure, size rejection, upload-transport error, and
any uncaught exception, all enumerated by `OrchEnv`) runs the `finally`
cleanup, and the early URL-validation rejection never creates the directory. -/
theorem vx_c1_cleanup (url : String) (env : OrchEnv) :
    (replace_twitter url env).tempDirRemoved = (replace_twitter url env).tempDirCreated := by
  unfold replace_twitter
  split
  · split <;> rfl
  · rfl

/-- Claim C2: `download_twitter_video` is total over every input URL and every
subprocess/filesystem outcome; every failure is returned as an error result
carrying a non-empty human-readable message and every non-failure return is a
full success record. -/
theorem vx_c2_fetch_total (url output_dir : String) (env : FetchEnv) :
    (∃ m, download_twitter_video url output_dir env = .err m ∧ m ≠ "") ∨
    (∃ v, download_twitter_video url output_dir env = .ok v) := by
  unfold download_twitter_video
  rcases hid : extract_tweet_id url with _ | tid
  · exact Or.inl ⟨_, rfl, by decide⟩
  · rcases hp : env.proc with _ | ⟨en, em⟩ | ⟨rc, so, se⟩
    · exact Or.inl ⟨_, rfl, by decide⟩
    · exact Or.inl ⟨_, rfl,
        str_append_ne_empty _ _ (str_append_ne_empty _ _ (str_append_ne_empty _ _ (by decide)))⟩
    · simp only
      split
      · exact Or.inl ⟨_, rfl,
          str_append_ne_empty _ _ (str_append_ne_empty _ _ (str_append_ne_empty _ _ (by decide)))⟩
      · split
        · exact Or.inl ⟨_, rfl,
            str_append_ne_empty _ _ (str_append_ne_empty _ _ (str_append_ne_empty _ _ (by decide)))⟩
        · split
          · split
            · exact Or.inl ⟨_, rfl, str_append_ne_empty _ _ (by decide)⟩
            · exact Or.inr ⟨_, rfl⟩
          · exact Or.inl ⟨_, rfl, by decide⟩

/-- Claim C9: the `/ig` and `/rx` commands perform exact-token domain
substitution on the two reference URLs, and reject (with the validation
message, as an ephemeral reply) every URL not containing the respective
source-domain substring. -/
theorem vx_c9_rewriters :
    replace_instagram "https://instagram.com/p/abc" = .sent "https://kkinstagram.com/p/abc" ∧
    replace_reddit "https://reddit.com/r/x" = .sent "https://rxddit.com/r/x" ∧
    (∀ url : String, containsSubStr url "instagram.com" = false →
      replace_instagram url = .rejected "URL tan invalida como vos.") ∧
    (∀ url : String, containsSubStr url "reddit.com" = false →
      replace_reddit url = .rejected "URL tan invalida como vos.") := by
  refine ⟨by decide, by decide, ?_, ?_⟩ <;>
    · intro url h
      simp [replace_instagram, replace_reddit, h]

/-- Witness for C9: a URL containing neither domain substring is rejected by
both commands. -/
theorem vx_c9_witness :
    replace_instagram "https://example.com/a" = .rejected "URL tan invalida como vos." ∧
    replace_reddit "https://example.com/a" = .rejected "URL tan invalida como vos." :=
  ⟨vx_c9_rewriters.2.2.1 "https://example.com/a" (by decide),
   vx_c9_rewriters.2.2.2 "https://example.com/a" (by decide)⟩

/-- Claim C3: the size-limit check is a strict greater-than against
`max_size = 50 * 1024 * 1024`: on a successful fetch with a working upload, a
file of at most the ceiling (in particular exactly the ceiling) is uploaded
with no extra message, while a file over the ceiling is never uploaded and
produces exactly one ephemeral oversize error. -/
theorem vx_c3_size (url : String) (env : OrchEnv) (v : VideoData)
    (hvalid : (containsSubStr url "twitter.com" || containsSubStr url "x.com") = true)
    (hexc : env.unexpected = none)
    (hfetch : download_twitter_video url env.tempDir env.fetchEnv = .ok v)
    (hup : env.upload = .ok) :
    (env.fileSize ≤ max_size →
      (replace_twitter url env).uploaded = some (buildPayload v env.fileSize) ∧
      (replace_twitter url env).sent = []) ∧
    (max_size < env.fileSize →
      (replace_twitter url env).uploaded = none ∧
      (replace_twitter url env).sent = [(.oversize env.fileSize, true)]) := by
  unfold replace_twitter vxBody
  rw [hexc, hfetch, hup]
  constructor
  · intro hle
    have hngt : ¬ (env.fileSize > max_size) := by omega
    simp [hvalid, hngt]
  · intro hgt
    simp [hvalid, hgt]

/-- Witness for C3: a fetch succeeding with a 7-field metadata line; a file of
exactly 50 MiB is uploaded, a file of 50 MiB + 1 byte is rejected with an
ephemeral oversize message and never uploaded. -/
theorem vx_c3_witness :
    (replace_twitter "https://x.com/a/status/123"
      { tempDir := "/w", fetchEnv := { proc := .done 0 "u␟t␟th␟ann␟bob␟desc␟20240101" "", files := ["123.mp4"] }
      , fileSize := 50 * 1024 * 1024, upload := .ok, unexpected := none }).uploaded =
      some (buildPayload ⟨"123.mp4", "t", "th", "ann", "bob", "desc", "20240101"⟩ (50 * 1024 * 1024)) ∧
    (replace_twitter "https://x.com/a/status/123"
      { tempDir := "/w", fetchEnv := { proc := .done 0 "u␟t␟th␟ann␟bob␟desc␟20240101" "", files := ["123.mp4"] }
      , fileSize := 50 * 1024 * 1024 + 1, upload := .ok, unexpected := none }).uploaded = none ∧
    (replace_twitter "https://x.com/a/status/123"
      { tempDir := "/w", fetchEnv := { proc := .done 0 "u␟t␟th␟ann␟bob␟desc␟20240101" "", files := ["123.mp4"] }
      , fileSize := 50 * 1024 * 1024 + 1, upload := .ok, unexpected := none }).sent =
      [(.oversize (50 * 1024 * 1024 + 1), true)] :=
  ⟨((vx_c3_size _ _ ⟨"123.mp4", "t", "th", "ann", "bob", "desc", "20240101"⟩
      (by decide) rfl (by decide) rfl).1 (by decide)).1,
   ((vx_c3_size _ _ ⟨"123.mp4", "t", "th", "ann", "bob", "desc", "20240101"⟩
      (by decide) rfl (by decide) rfl).2 (by decide)).1,
   ((vx_c3_size _ _ ⟨"123.mp4", "t", "th", "ann", "bob", "desc", "20240101"⟩
      (by decide) rfl (by decide) rfl).2 (by decide)).2⟩

/-- Claim C4: with the downloader exiting 0, a stdout line splitting into
exactly 7 separator-delimited fields always yields (when the downloaded file
is present) the success record whose 6 retained fields are the trimmed parts 1
to 6 of the line; a line with fewer than 7 fields always yields an error
result with a non-empty message and never a partial record. -/
theorem vx_c4_parse (url output_dir st se : String) (env : FetchEnv) (tid : String)
    (hid : extract_tweet_id url = some tid)
    (hproc : env.proc = .done 0 st se) :
    ((pySplitChar sepChar (pyStrip st)).length = 7 →
      ∀ f fs, env.files = f :: fs →
      download_twitter_video url output_dir env = .ok
        { file_path := f
        , title := pyStrip (pySplitChar sepChar (pyStrip st))[1]!
        , thumbnail := pyStrip (pySplitChar sepChar (pyStrip st))[2]!
        , uploader := pyStrip (pySplitChar sepChar (pyStrip st))[3]!
        , uploader_id := pyStrip (pySplitChar sepChar (pyStrip st))[4]!
        , description := pyStrip (pySplitChar sepChar (pyStrip st))[5]!
        , upload_date := pyStrip (pySplitChar sepChar (pyStrip st))[6]! }) ∧
    ((pySplitChar sepChar (pyStrip st)).length < 7 →
      ∃ m, download_twitter_video url output_dir env = .err m ∧ m ≠ "") := by
  unfold download_twitter_video
  rw [hid, hproc]
  constructor
  · intro h7 f fs hf
    have hn : ¬ ((pySplitChar sepChar (pyStrip st)).length < 7) := by omega
    simp [hn, h7, hf]
  · intro hlt
    exact ⟨"Output de yt-dlp inesperado (esperaba 7 partes, obtuvo " ++
        toString (pySplitChar sepChar (pyStrip st)).length ++ "): " ++ pyTake (pyStrip st) 200,
      by simp [hlt],
      str_append_ne_empty _ _ (str_append_ne_empty _ _ (str_append_ne_empty _ _ (by decide)))⟩

/-- Witness for C4: a 7-field line with padded fields gives the trimmed
record; a 2-field line gives an error result. -/
theorem vx_c4_witness :
    download_twitter_video "https://x.com/a/status/9" "/w"
      { proc := .done 0 "u␟ t ␟th␟ann␟bob␟desc␟20240101" "", files := ["9.mp4"] } = .ok
      { file_path := "9.mp4", title := "t", thumbnail := "th", uploader := "ann"
      , uploader_id := "bob", description := "desc", upload_date := "20240101" } ∧
    (∃ m, download_twitter_video "https://x.com/a/status/9" "/w"
      { proc := .done 0 "a␟b" "", files := ["9.mp4"] } = .err m ∧ m ≠ "") :=
  ⟨by
    have h := (vx_c4_parse "https://x.com/a/status/9" "/w" "u␟ t ␟th␟ann␟bob␟desc␟20240101" ""
      { proc := .done 0 "u␟ t ␟th␟ann␟bob␟desc␟20240101" "", files := ["9.mp4"] } "9"
      (by decide) rfl).1 (by decide) "9.mp4" [] rfl
    exact h.trans (by decide),
   (vx_c4_parse "https://x.com/a/status/9" "/w" "a␟b" ""
      { proc := .done 0 "a␟b" "", files := ["9.mp4"] } "9"
      (by decide) rfl).2 (by decide)⟩

/-- Claim C5, counterexample to the claim as stated: on the timeout outcome
the fetch does report the timeout Failure, but the child process is still
running when `download_twitter_video` returns — the code cancels only the
task awaiting `process.communicate()` and never issues a terminate/kill, so
the claimed "the child process does not remain running afterward" is false. -/
theorem vx_c5_counterexample :
    download_twitter_video "https://x.com/a/status/1" "/w"
      { proc := .timeout, files := [] } = .err "Timeout (60s) al descargar video de Twitter" ∧
    childRunningAfterFetch { proc := .timeout, files := [] } = true := by
  decide

/-- Claim C5 (amended): if the downloader subprocess does not exit within the
60-second timeout, the fetch is reported as a Failure carrying the timeout
message; the child process is abandoned without any terminate/kill call and
remains running when the fetch returns. -/
theorem vx_c5_timeout (url output_dir : String) (env : FetchEnv) (tid : String)
    (hid : extract_tweet_id url = some tid)
    (hproc : env.proc = .timeout) :
    download_twitter_video url output_dir env =
      .err "Timeout (60s) al descargar video de Twitter" ∧
    childRunningAfterFetch env = true := by
  unfold download_twitter_video childRunningAfterFetch
  rw [hid, hproc]
  exact ⟨rfl, rfl⟩

/-- Witness for the amended C5. -/
theorem vx_c5_witness :
    download_twitter_video "https://twitter.com/i/web/status/987" "/w"
      { proc := .timeout, files := [] } = .err "Timeout (60s) al descargar video de Twitter" ∧
    childRunningAfterFetch { proc := .timeout, files := [] } = true :=
  vx_c5_timeout "https://twitter.com/i/web/status/987" "/w"
    { proc := .timeout, files := [] } "987" (by decide) rfl

/-- Claim C10: a downloader stdout line splitting into more than 7
separator-delimited fields makes the fixed 7-way destructuring raise
`ValueError`, which the catch-all converts into an error result — never a
success and never a partial record. -/
theorem vx_c10_too_many (url output_dir st se : String) (env : FetchEnv) (tid : String)
    (hid : extract_tweet_id url = some tid)
    (hproc : env.proc = .done 0 st se)
    (hlen : 7 < (pySplitChar sepChar (pyStrip st)).length) :
    download_twitter_video url output_dir env =
      .err "Excepción al descargar video: ValueError: too many values to unpack (expected 7)" := by
  unfold download_twitter_video
  rw [hid, hproc]
  have h1 : ¬ ((pySplitChar sepChar (pyStrip st)).length < 7) := by omega
  have h2 : ¬ ((pySplitChar sepChar (pyStrip st)).length = 7) := by omega
  simp [h1, h2]

/-- Witness for C10: a description containing the reserved separator makes the
line split into 8 fields and the fetch fails. -/
theorem vx_c10_witness :
    download_twitter_video "https://x.com/a/status/9" "/w"
      { proc := .done 0 "u␟t␟th␟ann␟bob␟de␟sc␟20240101" "", files := ["9.mp4"] } =
      .err "Excepción al descargar video: ValueError: too many values to unpack (expected 7)" :=
  vx_c10_too_many "https://x.com/a/status/9" "/w" "u␟t␟th␟ann␟bob␟de␟sc␟20240101" ""
    { proc := .done 0 "u␟t␟th␟ann␟bob␟de␟sc␟20240101" "", files := ["9.mp4"] } "9"
    (by decide) rfl (by decide)

/-- When the `/vx` handler reaches the upload call, the uploaded payload is
exactly the embed built by `buildPayload` from the fetched metadata and the
stat-reported size. -/
theorem uploaded_payload (url : String) (env : OrchEnv) (v : VideoData) (p : UploadPayload)
    (hfetch : download_twitter_video url env.tempDir env.fetchEnv = .ok v)
    (hup : (replace_twitter url env).uploaded = some p) :
    p = buildPayload v env.fileSize := by
  by_cases hg : (containsSubStr url "twitter.com" || containsSubStr url "x.com") = true
  · rcases henv : env.unexpected with _ | e
    · by_cases hs : env.fileSize > max_size
      · simp [replace_twitter, vxBody, hg, henv, hfetch, hs] at hup
      · rcases hu : env.upload with _ | ⟨st, tx⟩
        · simp [replace_twitter, vxBody, hg, henv, hfetch, hs, hu] at hup
          exact hup.symm
        · simp [replace_twitter, vxBody, hg, henv, hfetch, hs, hu] at hup
          exact hup.symm
    · simp [replace_twitter, vxBody, hg, henv] at hup
  · simp [replace_twitter, hg] at hup

theorem pyTake_ne_empty (s : String) (n : Nat) (hs : s ≠ "") (hn : 0 < n) :
    pyTake s n ≠ "" := by
  cases s with
  | mk d =>
    cases d with
    | nil => exact absurd rfl hs
    | cons c cs =>
      cases n with
      | zero => omega
      | succ m =>
        rw [Ne, str_eq_empty_iff]
        simp [pyTake]

theorem suppressFuel_cons_ne_nil (fuel : Nat) (c : Char) (cs : List Char) :
    suppressFuel (fuel + 1) (c :: cs) ≠ [] := by
  unfold suppressFuel
  rcases hm : matchScheme (c :: cs) with _ | ⟨sch, rest⟩
  · simp
  · simp only
    split <;> simp

theorem suppress_ne_empty (s : String) (h : s ≠ "") : suppress_url_previews s ≠ "" := by
  cases s with
  | mk d =>
    cases d with
    | nil => exact absurd rfl h
    | cons c cs =>
      rw [Ne, str_eq_empty_iff]
      show suppressL (c :: cs) ≠ []
      unfold suppressL
      simpa using suppressFuel_cons_ne_nil cs.length c cs

/-- Claim C6, counterexample to the claim as stated: a successful fetch with
an empty uploader display name but a non-empty handle still shows the
fallback author name — the summary reads `Desconocido (@bob)` although the
handle is non-empty, so the fallback is not restricted to the case where both
fields are empty. -/
theorem vx_c6_counterexample :
    (replace_twitter "https://x.com/a/status/1"
      { tempDir := "/w"
      , fetchEnv := { proc := .done 0 "u␟t␟th␟␟bob␟desc␟20240101" "", files := ["1.mp4"] }
      , fileSize := 5, upload := .ok, unexpected := none }).uploaded.map UploadPayload.embedAuthor =
      some (some ("Desconocido (@bob)", some "https://unavatar.io/x/bob")) ∧
    download_twitter_video "https://x.com/a/status/1" "/w"
      { proc := .done 0 "u␟t␟th␟␟bob␟desc␟20240101" "", files := ["1.mp4"] } =
      .ok { file_path := "1.mp4", title := "t", thumbnail := "th", uploader := ""
          , uploader_id := "bob", description := "desc", upload_date := "20240101" } := by
  decide

/-- Claim C6 (amended): in the uploaded summary the author name falls back to
`"Desconocido"` exactly when the trimmed uploader display name is empty,
regardless of the handle; a non-empty trimmed handle is always appended as
`(@handle)` together with the avatar-lookup URL, and an empty handle leaves
the name alone. -/
theorem vx_c6_author (url : String) (env : OrchEnv) (v : VideoData) (p : UploadPayload)
    (hfetch : download_twitter_video url env.tempDir env.fetchEnv = .ok v)
    (hup : (replace_twitter url env).uploaded = some p) :
    p.embedAuthor =
      if pyStrip v.uploader_id ≠ "" then
        some ((if pyStrip v.uploader = "" then "Desconocido" else pyStrip v.uploader) ++
            " (@" ++ pyStrip v.uploader_id ++ ")",
          some ("https://unavatar.io/x/" ++ pyStrip v.uploader_id))
      else
        some ((if pyStrip v.uploader = "" then "Desconocido" else pyStrip v.uploader), none) := by
  have hp := uploaded_payload url env v p hfetch hup
  subst hp
  unfold buildPayload
  by_cases hu : pyStrip v.uploader = ""
  · by_cases hid : pyStrip v.uploader_id = ""
    · simp [hu, hid]
    · simp [hu, hid]
  · by_cases hid : pyStrip v.uploader_id = ""
    · simp [hu, hid]
    · simp [hu, hid]

/-- Witness for the amended C6: both metadata fields non-empty. -/
theorem vx_c6_witness :
    (buildPayload ⟨"1.mp4", "t", "th", "ann", "bob", "desc", "20240101"⟩ 5).embedAuthor =
      if pyStrip "bob" ≠ "" then
        some ((if pyStrip "ann" = "" then "Desconocido" else pyStrip "ann") ++
            " (@" ++ pyStrip "bob" ++ ")",
          some ("https://unavatar.io/x/" ++ pyStrip "bob"))
      else
        some ((if pyStrip "ann" = "" then "Desconocido" else pyStrip "ann"), none) :=
  vx_c6_author "https://x.com/a/status/1"
    { tempDir := "/w"
    , fetchEnv := { proc := .done 0 "u␟t␟th␟ann␟bob␟desc␟20240101" "", files := ["1.mp4"] }
    , fileSize := 5, upload := .ok, unexpected := none }
    ⟨"1.mp4", "t", "th", "ann", "bob", "desc", "20240101"⟩
    (buildPayload ⟨"1.mp4", "t", "th", "ann", "bob", "desc", "20240101"⟩ 5)
    (by decide) (by decide)

/-- Claim C7, counterexample to the claim as stated: on a successful fetch
whose description is empty, the summary shows the placeholder `"Video de X"`,
not the (empty) result of truncating and URL-escaping the fetched
description. -/
theorem vx_c7_counterexample :
    (replace_twitter "https://x.com/a/status/1"
      { tempDir := "/w"
      , fetchEnv := { proc := .done 0 "u␟t␟th␟ann␟bob␟␟20240101" "", files := ["1.mp4"] }
      , fileSize := 5, upload := .ok, unexpected := none }).uploaded.map UploadPayload.embedDescription =
      some "Video de X" ∧
    download_twitter_video "https://x.com/a/status/1" "/w"
      { proc := .done 0 "u␟t␟th␟ann␟bob␟␟20240101" "", files := ["1.mp4"] } =
      .ok { file_path := "1.mp4", title := "t", thumbnail := "th", uploader := "ann"
          , uploader_id := "bob", description := "", upload_date := "20240101" } ∧
    suppress_url_previews (pyTake (pyStrip "") 280) = "" ∧
    ("Video de X" : String) ≠ suppress_url_previews (pyTake (pyStrip "") 280) := by
  decide

/-- Claim C7 (amended): in the uploaded summary, when the trimmed fetched
description is non-empty it is shown truncated to at most 280 code points
with `suppress_url_previews` applied exactly once; when it is empty the
placeholder `"Video de X"` is shown instead. -/
theorem vx_c7_description (url : String) (env : OrchEnv) (v : VideoData) (p : UploadPayload)
    (hfetch : download_twitter_video url env.tempDir env.fetchEnv = .ok v)
    (hup : (replace_twitter url env).uploaded = some p) :
    (pyStrip v.description ≠ "" →
      p.embedDescription =
        suppress_url_previews
          (if 280 < (pyStrip v.description).length then pyTake (pyStrip v.description) 280
           else pyStrip v.description)) ∧
    (pyStrip v.description = "" → p.embedDescription = "Video de X") := by
  have hp := uploaded_payload url env v p hfetch hup
  subst hp
  unfold buildPayload
  constructor
  · intro hne
    have hd1 : (if 280 < (pyStrip v.description).length then pyTake (pyStrip v.description) 280
        else pyStrip v.description) ≠ "" := by
      split
      · exact pyTake_ne_empty _ _ hne (by omega)
      · exact hne
    have hsup := suppress_ne_empty _ hd1
    simp [hd1, hsup]
  · intro he
    simp [he]

/-- Witness for the amended C7: a short non-empty description containing a
URL is shown escaped; an empty description shows the placeholder. -/
theorem vx_c7_witness :
    (buildPayload ⟨"1.mp4", "t", "th", "ann", "bob", "ver https://x.com/a", "20240101"⟩ 5).embedDescription =
      suppress_url_previews
        (if 280 < (pyStrip "ver https://x.com/a").length then pyTake (pyStrip "ver https://x.com/a") 280
         else pyStrip "ver https://x.com/a") :=
  (vx_c7_description "https://x.com/a/status/1"
    { tempDir := "/w"
    , fetchEnv := { proc := .done 0 "u␟t␟th␟ann␟bob␟ver https://x.com/a␟20240101" "", files := ["1.mp4"] }
    , fileSize := 5, upload := .ok, unexpected := none }
    ⟨"1.mp4", "t", "th", "ann", "bob", "ver https://x.com/a", "20240101"⟩
    (buildPayload ⟨"1.mp4", "t", "th", "ann", "bob", "ver https://x.com/a", "20240101"⟩ 5)
    (by decide) (by decide)).1 (by decide)

/-! ### Lemmas on the regex scan, for claim C8 -/

theorem suppressFuel_congr :
    ∀ f1 f2 l, l.length ≤ f1 → l.length ≤ f2 → suppressFuel f1 l = suppressFuel f2 l := by
  intro f1
  induction f1 with
  | zero =>
    intro f2 l h1 _
    cases l with
    | nil => cases f2 <;> rfl
    | cons c cs => simp at h1
  | succ g1 ih =>
    intro f2 l h1 h2
    cases l with
    | nil => cases f2 <;> rfl
    | cons c cs =>
      cases f2 with
      | zero => simp at h2
      | succ g2 =>
        simp only [suppressFuel]
        rcases hm : matchScheme (c :: cs) with _ | ⟨sch, rest⟩
        · simp only [hm]
          simp only [List.length_cons] at h1 h2
          rw [ih g2 cs (by omega) (by omega)]
        · obtain ⟨_, _, hlt⟩ := matchScheme_some hm
          simp only [hm]
          simp only [List.length_cons] at h1 h2 hlt
          split
          · rw [ih g2 cs (by omega) (by omega)]
          · rw [ih g2 (rest.drop (rest.takeWhile isUrlBodyChar).length)
              (by simp only [List.length_drop]; omega)
              (by simp only [List.length_drop]; omega)]

theorem suppressFuel_id :
    ∀ fuel l, hasUrlAux l = false → suppressFuel fuel l = l := by
  intro fuel
  induction fuel with
  | zero =>
    intro l _
    cases l <;> rfl
  | succ g ih =>
    intro l h
    cases l with
    | nil => rfl
    | cons c cs =>
      have h0 : startsUrl (c :: cs) = false ∧ hasUrlAux cs = false := by
        simpa [hasUrlAux] using h
      simp only [suppressFuel]
      rcases hm : matchScheme (c :: cs) with _ | ⟨sch, rest⟩
      · rw [ih cs h0.2]
      · have hbody : (rest.takeWhile isUrlBodyChar).isEmpty = true := by
          have hs := h0.1
          unfold startsUrl at hs
          rw [hm] at hs
          simpa using hs
        simp only [hbody, if_true]
        rw [ih cs h0.2]

/-- On a list of body characters followed by text whose first character (when
present) is not a body character, the greedy body match takes exactly the body
characters. -/
theorem takeWhile_body :
    ∀ body post : List Char,
      (∀ c ∈ body, isUrlBodyChar c = true) →
      (∀ c ∈ post.take 1, isUrlBodyChar c = false) →
      (body ++ post).takeWhile isUrlBodyChar = body := by
  intro body
  induction body with
  | nil =>
    intro post _ hp
    cases post with
    | nil => rfl
    | cons d ds =>
      have hd : isUrlBodyChar d = false := hp d (by simp)
      simp [List.takeWhile_cons, hd]
  | cons b bs ih =>
    intro post hbc hp
    have hb : isUrlBodyChar b = true := hbc b (by simp)
    simp only [List.cons_append, List.takeWhile_cons, hb, if_true]
    rw [ih post (fun c hc => hbc c (by simp [hc])) hp]

/-- Core of claim C8: the scan copies a prefix in which no URL match starts,
wraps the URL that follows it as `<url>`, and continues scanning after it. -/
theorem suppressFuel_wrap :
    ∀ (pre : List Char) (fuel : Nat) (sch body post : List Char),
      (sch = "http://".data ∨ sch = "https://".data) →
      body ≠ [] →
      (∀ c ∈ body, isUrlBodyChar c = true) →
      (∀ c ∈ post.take 1, isUrlBodyChar c = false) →
      (∀ i, i < pre.length → startsUrl ((pre ++ (sch ++ (body ++ post))).drop i) = false) →
      (pre ++ (sch ++ (body ++ post))).length ≤ fuel →
      suppressFuel fuel (pre ++ (sch ++ (body ++ post))) =
        pre ++ ('<' :: sch ++ body ++ '>' :: suppressL post) := by
  intro pre
  induction pre with
  | nil =>
    intro fuel sch body post hs hb hbc hp _ hfuel
    simp only [List.nil_append] at hfuel ⊢
    have hschlen : 7 ≤ sch.length := by
      rcases hs with h | h <;> subst h <;> decide
    have hlen : sch.length + (body.length + post.length) ≤ fuel := by
      simpa using hfuel
    cases fuel with
    | zero => omega
    | succ g =>
      have hcons : ∃ c cs, sch ++ (body ++ post) = c :: cs := by
        rcases hs with h | h <;> subst h <;> exact ⟨_, _, rfl⟩
      obtain ⟨c, cs, hcc⟩ := hcons
      rw [hcc]
      simp only [suppressFuel]
      rw [← hcc, matchScheme_append sch (body ++ post) hs]
      have htw : (body ++ post).takeWhile isUrlBodyChar = body := takeWhile_body body post hbc hp
      have hne : body.isEmpty = false := by
        cases body with
        | nil => exact absurd rfl hb
        | cons _ _ => rfl
      simp only [htw, hne, Bool.false_eq_true, if_false]
      rw [List.drop_left]
      rw [suppressFuel_congr g post.length post (by omega) (le_refl _)]
      rfl
  | cons c pre' ih =>
    intro fuel sch body post hs hb hbc hp hpre hfuel
    simp only [List.cons_append, List.length_cons] at hfuel ⊢
    cases fuel with
    | zero => omega
    | succ g =>
      have h0 : startsUrl (c :: (pre' ++ (sch ++ (body ++ post)))) = false := by
        have := hpre 0 (by simp)
        simpa using this
      have hpre' : ∀ i, i < pre'.length →
          startsUrl ((pre' ++ (sch ++ (body ++ post))).drop i) = false := by
        intro i hi
        have := hpre (i + 1) (by simp; omega)
        simpa using this
      simp only [suppressFuel]
      rcases hm : matchScheme (c :: (pre' ++ (sch ++ (body ++ post)))) with _ | ⟨s0, r0⟩
      · simp only [hm]
        rw [ih g sch body post hs hb hbc hp hpre' (by omega)]
        simp only [List.cons_append]
      · have hbody : (r0.takeWhile isUrlBodyChar).isEmpty = true := by
          unfold startsUrl at h0
          rw [hm] at h0
          simpa using h0
        simp only [hm, hbody, if_true]
        rw [ih g sch body post hs hb hbc hp hpre' (by omega)]
        simp only [List.cons_append]

/-- Claim C8: `suppress_url_previews` is a pure function; on text containing
no match of the URL pattern it is the identity, and on text decomposing as a
match-free prefix, a URL (scheme plus non-empty body of characters outside
whitespace and angle brackets, maximal because the following text does not
start with a body character), and a remainder, it wraps that URL as `<url>`
and leaves the prefix byte-identical, continuing on the remainder. -/
theorem vx_c8_suppress :
    (∀ s : String, hasUrl s = false → suppress_url_previews s = s) ∧
    (∀ pre sch body post : List Char,
      (sch = "http://".data ∨ sch = "https://".data) →
      body ≠ [] →
      (∀ c ∈ body, isUrlBodyChar c = true) →
      (∀ c ∈ post.take 1, isUrlBodyChar c = false) →
      (∀ i, i < pre.length → startsUrl ((pre ++ (sch ++ (body ++ post))).drop i) = false) →
      suppressL (pre ++ (sch ++ (body ++ post))) =
        pre ++ ('<' :: sch ++ body ++ '>' :: suppressL post)) := by
  constructor
  · intro s h
    cases s with
    | mk d =>
      have : suppressL d = d := suppressFuel_id d.length d h
      show String.mk (suppressL d) = String.mk d
      rw [this]
  · intro pre sch body post hs hb hbc hp hpre
    exact suppressFuel_wrap pre (pre ++ (sch ++ (body ++ post))).length
      sch body post hs hb hbc hp hpre (le_refl _)

/-- Witness for C8: URL-free text is returned unchanged; a URL embedded in
plain text is wrapped with the surrounding text untouched. -/
theorem vx_c8_witness :
    suppress_url_previews "hola que tal" = "hola que tal" ∧
    suppressL ("ver ".data ++ ("https://".data ++ ("x.com/a".data ++ " aqui".data))) =
      "ver ".data ++ ('<' :: "https://".data ++ "x.com/a".data ++ '>' :: suppressL " aqui".data) :=
  ⟨vx_c8_suppress.1 "hola que tal" (by decide),
   vx_c8_suppress.2 "ver ".data "https://".data "x.com/a".data " aqui".data
     (Or.inr rfl) (by decide) (by decide) (by decide) (by decide)⟩

end Bot
